import Mathlib

/-!
Verification development for the `qt-logger` repository
(`src/logger.h`, `src/logger.cpp`, namespace `DIRA_3D_GW`).

The embedding below translates the logger's pure logic into Lean:
`QString` values become `List Char`, file contents become `List Nat`
(byte values), the mutable `Logger` object becomes an explicit
`LoggerState` record and every member function becomes a state-passing
Lean function.  Ambient effects (the wall clock, the on-disk file size,
the set of files in the log directory, the contents of the config file)
are passed in as explicit parameters.  64-bit signed overflow, where it
can occur, is modelled with an explicit wrap at `2^64`.
-/

set_option maxRecDepth 10000

/-- Severity levels of the logger.

Modelled from the spec: the enum `LoggerLevel` lives in `loggertypes.h`,
which is not under `src/`; the spec fixes the ascending ordering
`System < Critical < Error < Warning < Info < Debug < Developer`, which
the comparisons `m_level >= LoggerLevel::X` in `src/logger.cpp` rely on. -/
inductive LoggerLevel where
  | System
  | Critical
  | Error
  | Warning
  | Info
  | Debug
  | Developer
deriving DecidableEq, Repr

/-- Numeric value of a severity level, per the spec's ascending ordering. -/
def LoggerLevel.toNat : LoggerLevel → Nat
  | .System => 0
  | .Critical => 1
  | .Error => 2
  | .Warning => 3
  | .Info => 4
  | .Debug => 5
  | .Developer => 6

/-- The level name used by each submit entry point when formatting
(`"System"`, `"Critical"`, ... as passed to `format_msg` in `logger.cpp`). -/
def LoggerLevel.name : LoggerLevel → List Char
  | .System => ("System").toList
  | .Critical => ("Critical").toList
  | .Error => ("Error").toList
  | .Warning => ("Warning").toList
  | .Info => ("Info").toList
  | .Debug => ("Debug").toList
  | .Developer => ("Developer").toList

/-- The logger's member state (`src/logger.h`, fields of class `Logger`).
Mutexes, the condition variable and the thread handle are concurrency
plumbing; of the thread handle we keep the observable fact that a writer
thread has been started (`m_threadStarted`). -/
structure LoggerState where
  m_rootFolder : List Char
  m_fileName : List Char
  m_level : LoggerLevel
  m_maxFilesSizeInBytes : Int
  m_maxFilesCount : Int
  m_ready : Bool
  m_is_writing : Bool
  m_threadStarted : Bool
  m_queue : List (List Char)
deriving DecidableEq, Repr

/-- The `Logger()` constructor (`logger.cpp` lines 13-18 and the member
initializers in `logger.h`): empty folder and file name, level `Warning`,
both limits at the unset sentinel `-1`, flags false, empty queue. -/
def initialLogger : LoggerState where
  m_rootFolder := []
  m_fileName := []
  m_level := LoggerLevel.Warning
  m_maxFilesSizeInBytes := -1
  m_maxFilesCount := -1
  m_ready := false
  m_is_writing := false
  m_threadStarted := false
  m_queue := []

/-- `Logger::init` (`logger.cpp` lines 30-51): reject an empty directory,
store all parameters, set `m_is_writing` to "file name non-empty" and, when
writing, start the writer thread.  The source performs no check that the
instance is already running. -/
def Logger.init (st : LoggerState) (dir fileName : List Char)
    (level : LoggerLevel) (maxFileSize : Int) (maxFilesCount : Int) :
    Bool × LoggerState :=
  if dir.isEmpty then
    (false, st)
  else
    let isw := !fileName.isEmpty
    (true, { st with
      m_rootFolder := dir
      m_fileName := fileName
      m_level := level
      m_maxFilesSizeInBytes := maxFileSize
      m_maxFilesCount := maxFilesCount
      m_is_writing := isw
      m_threadStarted := st.m_threadStarted || isw })

/-- `Logger::addQueueItem` (`logger.cpp` lines 88-94): push the formatted
item at the back of the queue and raise the ready flag (the notify on the
condition variable is concurrency plumbing). -/
def Logger.addQueueItem (st : LoggerState) (item : List Char) : LoggerState :=
  { st with m_queue := st.m_queue ++ [item], m_ready := true }

/-- `Logger::isFileMaxSize` (`logger.cpp` lines 265-268): the rotation
trigger, with the fixed 80-byte tolerance `diff`.  The current size of the
active file on disk is passed in as `curFileSize`; all arithmetic is on
signed 64-bit quantities that cannot overflow here, so plain `Int` is
faithful. -/
def Logger.isFileMaxSize (st : LoggerState) (curFileSize : Int) : Bool :=
  decide (st.m_maxFilesSizeInBytes ≠ -1 ∧
          curFileSize - 80 ≥ st.m_maxFilesSizeInBytes)

/-- Claim C1: `isFileMaxSize` returns true iff the configured maximum is
not the unset sentinel `-1` and the active file's size minus the 80-byte
tolerance is at least the maximum; in particular with the maximum unset
the trigger never fires. -/
theorem isFileMaxSize_iff (st : LoggerState) (curFileSize : Int) :
    (Logger.isFileMaxSize st curFileSize = true ↔
      st.m_maxFilesSizeInBytes ≠ -1 ∧
        curFileSize - 80 ≥ st.m_maxFilesSizeInBytes) ∧
    (st.m_maxFilesSizeInBytes = -1 →
      Logger.isFileMaxSize st curFileSize = false) := by
  constructor
  · simp [Logger.isFileMaxSize]
  · intro h
    simp [Logger.isFileMaxSize, h]

/-- `QChar::digitValue`-style digit test used when scanning `QString::arg`
place markers: the numeric value of an ASCII digit, else `none`. -/
def digitVal (c : Char) : Option Nat :=
  if ('0' ≤ c ∧ c ≤ '9') then some (c.toNat - 48) else none

/-- The numbers of the `QString::arg` place markers occurring in a string,
in textual order.  A marker is `%` followed by one or two ASCII digits
(two when the second character is also a digit, as in Qt's
`findArgEscapes`); a `%` not followed by a digit is plain text and
scanning resumes at the character after the `%`.  (Qt's `%L` locale flag
is not modelled; no formatted string of the logger uses it.) -/
def markerNumbers : List Char → List Nat
  | [] => []
  | '%' :: [] => []
  | '%' :: c1 :: rest1 =>
    (match digitVal c1 with
     | none => markerNumbers (c1 :: rest1)
     | some d1 =>
       match rest1 with
       | [] => [d1]
       | c2 :: rest2 =>
         match digitVal c2 with
         | some d2 => (d1 * 10 + d2) :: markerNumbers rest2
         | none => d1 :: markerNumbers (c2 :: rest2))
  | _ :: rest => markerNumbers rest

/-- Replace every occurrence of the place marker numbered `n` by `r`,
leaving other markers and plain text unchanged; the replacement text is
not rescanned (as in Qt's `replaceArgEscapes`). -/
def replaceMarker (n : Nat) (r : List Char) : List Char → List Char
  | [] => []
  | '%' :: [] => ['%']
  | '%' :: c1 :: rest1 =>
    (match digitVal c1 with
     | none => '%' :: replaceMarker n r (c1 :: rest1)
     | some d1 =>
       match rest1 with
       | [] => if d1 = n then r else ['%', c1]
       | c2 :: rest2 =>
         match digitVal c2 with
         | some d2 =>
           if d1 * 10 + d2 = n then r ++ replaceMarker n r rest2
           else '%' :: c1 :: c2 :: replaceMarker n r rest2
         | none =>
           if d1 = n then r ++ replaceMarker n r (c2 :: rest2)
           else '%' :: c1 :: replaceMarker n r (c2 :: rest2))
  | c :: rest => c :: replaceMarker n r rest

/-- Smallest element of a list of naturals, `none` for the empty list
(the "lowest numbered place marker" rule of `QString::arg`). -/
def listMin : List Nat → Option Nat
  | [] => none
  | x :: xs =>
    match listMin xs with
    | none => some x
    | some m => some (min x m)

/-- `QString::arg(a)`: replace every occurrence of the lowest-numbered
place marker by `a`; if the string holds no marker it is returned
unchanged (Qt only warns). -/
def qarg (s a : List Char) : List Char :=
  match listMin (markerNumbers s) with
  | some n => replaceMarker n a s
  | none => s

/-- Decimal rendering of a signed integer, as `QString::arg(int)`
produces for base 10. -/
def intToChars (i : Int) : List Char :=
  if i < 0 then '-' :: Nat.toDigits 10 i.natAbs else Nat.toDigits 10 i.natAbs

/-- `Logger::format_msg` (`logger.cpp` lines 105-128): four template
variants selected by "source file non-empty" and "source line ≠ -1", each
filled in by a chain of `QString::arg` calls.  The timestamp string that
the source obtains from `QDateTime::currentDateTime().toString("dd.MM.yyyy
hh:mm:ss")` is ambient wall-clock state and is passed in as `ts`. -/
def format_msg (ts strLevel message sourceFile : List Char)
    (sourceLine : Int) : List Char :=
  if sourceFile ≠ [] then
    if sourceLine ≠ -1 then
      qarg (qarg (qarg (qarg (qarg (("%1 [%2]: %3 [%4 (%5)]\n").toList) ts)
        strLevel) message) sourceFile) (intToChars sourceLine)
    else
      qarg (qarg (qarg (qarg (("%1 [%2]: %3 [%4]\n").toList) ts)
        strLevel) message) sourceFile
  else
    if sourceLine ≠ -1 then
      qarg (qarg (qarg (qarg (("%1 [%2]: %3 (%4)\n").toList) ts)
        strLevel) message) (intToChars sourceLine)
    else
      qarg (qarg (qarg (("%1 [%2]: %3\n").toList) ts) strLevel) message

/-- `Logger::system` (`logger.cpp` lines 211-216): enqueue a formatted
message when the configured level admits `System` and the logger is
writing; otherwise a no-op.  `ts` is the ambient wall-clock timestamp
string consumed by `format_msg`. -/
def Logger.system (st : LoggerState) (ts message sourceFile : List Char)
    (sourceLine : Int) : LoggerState :=
  if st.m_level.toNat ≥ LoggerLevel.System.toNat ∧ st.m_is_writing = true then
    Logger.addQueueItem st
      (format_msg ts (("System").toList) message sourceFile sourceLine)
  else st

/-- `Logger::critical` (`logger.cpp` lines 218-223). -/
def Logger.critical (st : LoggerState) (ts message sourceFile : List Char)
    (sourceLine : Int) : LoggerState :=
  if st.m_level.toNat ≥ LoggerLevel.Critical.toNat ∧ st.m_is_writing = true then
    Logger.addQueueItem st
      (format_msg ts (("Critical").toList) message sourceFile sourceLine)
  else st

/-- `Logger::error` (`logger.cpp` lines 225-230). -/
def Logger.error (st : LoggerState) (ts message sourceFile : List Char)
    (sourceLine : Int) : LoggerState :=
  if st.m_level.toNat ≥ LoggerLevel.Error.toNat ∧ st.m_is_writing = true then
    Logger.addQueueItem st
      (format_msg ts (("Error").toList) message sourceFile sourceLine)
  else st

/-- `Logger::warning` (`logger.cpp` lines 232-237). -/
def Logger.warning (st : LoggerState) (ts message sourceFile : List Char)
    (sourceLine : Int) : LoggerState :=
  if st.m_level.toNat ≥ LoggerLevel.Warning.toNat ∧ st.m_is_writing = true then
    Logger.addQueueItem st
      (format_msg ts (("Warning").toList) message sourceFile sourceLine)
  else st

/-- `Logger::info` (`logger.cpp` lines 239-244). -/
def Logger.info (st : LoggerState) (ts message sourceFile : List Char)
    (sourceLine : Int) : LoggerState :=
  if st.m_level.toNat ≥ LoggerLevel.Info.toNat ∧ st.m_is_writing = true then
    Logger.addQueueItem st
      (format_msg ts (("Info").toList) message sourceFile sourceLine)
  else st

/-- `Logger::debug` (`logger.cpp` lines 246-251). -/
def Logger.debug (st : LoggerState) (ts message sourceFile : List Char)
    (sourceLine : Int) : LoggerState :=
  if st.m_level.toNat ≥ LoggerLevel.Debug.toNat ∧ st.m_is_writing = true then
    Logger.addQueueItem st
      (format_msg ts (("Debug").toList) message sourceFile sourceLine)
  else st

/-- `Logger::dev` (`logger.cpp` lines 253-258). -/
def Logger.dev (st : LoggerState) (ts message sourceFile : List Char)
    (sourceLine : Int) : LoggerState :=
  if st.m_level.toNat ≥ LoggerLevel.Developer.toNat ∧ st.m_is_writing = true then
    Logger.addQueueItem st
      (format_msg ts (("Developer").toList) message sourceFile sourceLine)
  else st

/-- Dispatch to the submit entry point matching a severity level (the
seven per-level members of `Logger`). -/
def submitAt (st : LoggerState) (L : LoggerLevel)
    (ts message sourceFile : List Char) (sourceLine : Int) : LoggerState :=
  match L with
  | .System => Logger.system st ts message sourceFile sourceLine
  | .Critical => Logger.critical st ts message sourceFile sourceLine
  | .Error => Logger.error st ts message sourceFile sourceLine
  | .Warning => Logger.warning st ts message sourceFile sourceLine
  | .Info => Logger.info st ts message sourceFile sourceLine
  | .Debug => Logger.debug st ts message sourceFile sourceLine
  | .Developer => Logger.dev st ts message sourceFile sourceLine

/-- Claim C4: on a running logger, a submit at level `L` appends exactly
one formatted message to the queue when `L ≤ T` (the configured
threshold, in the ordering System < Critical < Error < Warning < Info <
Debug < Developer), and is a complete no-op when `L > T`. -/
theorem submit_threshold_filter (st : LoggerState) (L : LoggerLevel)
    (ts message sourceFile : List Char) (sourceLine : Int)
    (hrun : st.m_is_writing = true) :
    ((submitAt st L ts message sourceFile sourceLine).m_queue =
      if L.toNat ≤ st.m_level.toNat then
        st.m_queue ++ [format_msg ts L.name message sourceFile sourceLine]
      else st.m_queue) ∧
    (¬ L.toNat ≤ st.m_level.toNat →
      submitAt st L ts message sourceFile sourceLine = st) := by
  cases L <;>
    simp [submitAt, Logger.system, Logger.critical, Logger.error,
      Logger.warning, Logger.info, Logger.debug, Logger.dev,
      Logger.addQueueItem, LoggerLevel.toNat, LoggerLevel.name, hrun] <;>
    constructor <;>
    first
      | (intro h; simp [h])
      | (split <;> simp_all)

/-- A concrete running logger with threshold `Info`, used to instantiate
the threshold-filter theorem. -/
def infoRunningLogger : LoggerState :=
  { initialLogger with
    m_level := LoggerLevel.Info
    m_is_writing := true }

/-- Witness for C4 at a concrete state: threshold `Info`, running; a
`debug` submit (Debug > Info) leaves the queue unchanged and is a no-op. -/
theorem submit_threshold_filter_witness :
    infoRunningLogger.m_is_writing = true ∧
    ((submitAt infoRunningLogger LoggerLevel.Debug (("T").toList)
        (("hello").toList) [] (-1)).m_queue =
      if LoggerLevel.Debug.toNat ≤ infoRunningLogger.m_level.toNat then
        infoRunningLogger.m_queue ++ [format_msg (("T").toList)
          LoggerLevel.Debug.name (("hello").toList) [] (-1)]
      else infoRunningLogger.m_queue) :=
  ⟨rfl,
   (submit_threshold_filter infoRunningLogger LoggerLevel.Debug
      (("T").toList) (("hello").toList) [] (-1) rfl).1⟩

/-- The state after one successful `init` with a non-empty file name: a
running instance with a started writer thread. -/
def runningAfterFirstInit : LoggerState :=
  (Logger.init initialLogger (("/tmp").toList) (("a.log").toList)
    LoggerLevel.Info (-1) (-1)).2

/-- Claim C6, at the failing input: `Logger::init` performs no
already-running check, so after a first successful init (instance running,
writer thread started) a second `init` call with a non-empty directory and
an empty file name again returns `true` — a second successful init on a
running instance, contradicting the single-shot contract stated in the
spec and in the class documentation of `logger.h`.  (With a non-empty file
name the second call would instead move-assign onto the still-joinable
writer thread, which calls `std::terminate`.) -/
theorem init_second_call_succeeds :
    runningAfterFirstInit.m_is_writing = true ∧
    runningAfterFirstInit.m_threadStarted = true ∧
    (Logger.init runningAfterFirstInit (("/tmp").toList) []
      LoggerLevel.Info (-1) (-1)).1 = true := by
  refine ⟨rfl, rfl, rfl⟩

/-- The state after an `init` whose base file name is empty. -/
def emptyNameInit (dir : List Char) (level : LoggerLevel)
    (maxFileSize maxFilesCount : Int) : LoggerState :=
  (Logger.init initialLogger dir [] level maxFileSize maxFilesCount).2

/-- A submit entry point on a non-writing state is the identity. -/
theorem submitAt_not_writing (st : LoggerState) (L : LoggerLevel)
    (ts message sourceFile : List Char) (sourceLine : Int)
    (hw : st.m_is_writing = false) :
    submitAt st L ts message sourceFile sourceLine = st := by
  cases L <;>
    simp [submitAt, Logger.system, Logger.critical, Logger.error,
      Logger.warning, Logger.info, Logger.debug, Logger.dev, hw]

/-- Claim C7: if the base file name passed to `init` is empty the instance
is inert — no writer thread is started and every submit entry point at
every level leaves the whole state (queue included) unchanged. -/
theorem init_empty_fileName_inert (dir : List Char) (level : LoggerLevel)
    (maxFileSize maxFilesCount : Int) (L : LoggerLevel)
    (ts message sourceFile : List Char) (sourceLine : Int) :
    (emptyNameInit dir level maxFileSize maxFilesCount).m_is_writing = false ∧
    (emptyNameInit dir level maxFileSize maxFilesCount).m_threadStarted
      = false ∧
    submitAt (emptyNameInit dir level maxFileSize maxFilesCount)
        L ts message sourceFile sourceLine =
      emptyNameInit dir level maxFileSize maxFilesCount := by
  have hw : (emptyNameInit dir level maxFileSize maxFilesCount).m_is_writing
      = false := by
    unfold emptyNameInit Logger.init
    split <;> simp [initialLogger]
  have ht : (emptyNameInit dir level maxFileSize
      maxFilesCount).m_threadStarted = false := by
    unfold emptyNameInit Logger.init
    split <;> simp [initialLogger]
  exact ⟨hw, ht, submitAt_not_writing _ _ _ _ _ _ hw⟩

/-- ASCII whitespace ignored by Qt's string-to-number conversions. -/
def qIsSpace (c : Char) : Bool :=
  c = ' ' || c = '\t' || c = '\n' || c = '\r' ||
    c.toNat = 11 || c.toNat = 12

/-- Strip leading and trailing whitespace, as `QString::toInt` does before
parsing. -/
def qTrim (l : List Char) : List Char :=
  ((l.dropWhile qIsSpace).reverse.dropWhile qIsSpace).reverse

/-- Value of a non-empty all-digit string, else `none`. -/
def parseDigits : List Char → Option Nat := fun l =>
  if l ≠ [] ∧ l.all Char.isDigit then
    some (l.foldl (fun acc c => acc * 10 + (c.toNat - 48)) 0)
  else none

/-- `QString::toInt` as a partial function: trim whitespace, accept an
optional sign followed by digits, and require the value to fit a 32-bit
signed int (Qt reports overflow as failure); `none` on any failure. -/
def qstringToIntOk (s : List Char) : Option Int :=
  let t := qTrim s
  let core : Option Int :=
    match t with
    | '-' :: rest => (parseDigits rest).map (fun n => -(n : Int))
    | '+' :: rest => (parseDigits rest).map (fun n => (n : Int))
    | _ => (parseDigits t).map (fun n => (n : Int))
  match core with
  | some v => if -(2 ^ 31) ≤ v ∧ v ≤ 2 ^ 31 - 1 then some v else none
  | none => none

/-- `QString::toInt()` with the default `ok` pointer: 0 on failure. -/
def qstringToInt (s : List Char) : Int :=
  (qstringToIntOk s).getD 0

/-- Whether the first list is an initial segment of the second
(`QString::indexOf` match test at one position). -/
def leadsWith : List Char → List Char → Bool
  | [], _ => true
  | _ :: _, [] => false
  | a :: as, b :: bs => a = b && leadsWith as bs

/-- `QString::indexOf(needle)`: position of the first occurrence of
`needle` in the string, `none` when absent. -/
def firstOccur : List Char → List Char → Option Nat
  | needle, [] => if needle.isEmpty then some 0 else none
  | needle, c :: rest =>
    if leadsWith needle (c :: rest) then some 0
    else (firstOccur needle rest).map (· + 1)

/-- The suffix table of `Logger::MaxLogFileSize_to_int` (`logger.cpp`
lines 147-158).  The source stores it in a `std::map<QString, int64_t>`,
so iteration visits the keys in sorted order of `QString::operator<`
(UTF-16 code-unit order: all uppercase pairs before the lowercase ones). -/
def sizeSuffixes : List (List Char × Int) :=
  [(("GB").toList, 1024 ^ 3), (("Gb").toList, 1024 ^ 3),
   (("KB").toList, 1024), (("Kb").toList, 1024),
   (("MB").toList, 1024 ^ 2), (("Mb").toList, 1024 ^ 2),
   (("TB").toList, 1024 ^ 4), (("Tb").toList, 1024 ^ 4),
   (("gb").toList, 1024 ^ 3), (("kb").toList, 1024),
   (("mb").toList, 1024 ^ 2), (("tb").toList, 1024 ^ 4)]

/-- The suffix-search loop of `MaxLogFileSize_to_int`: the first table
entry (in table order) occurring anywhere in `s`, with the position of its
first occurrence and its factor. -/
def findSuffixHit : List (List Char × Int) → List Char → Option (Nat × Int)
  | [], _ => none
  | (key, fac) :: rest, s =>
    match firstOccur key s with
    | some pos => some (pos, fac)
    | none => findSuffixHit rest s

/-- Two's-complement wrap of a mathematical integer into the signed 64-bit
range, for the `int32 * int64` product in the source. -/
def int64wrap (x : Int) : Int :=
  (x + 2 ^ 63) % 2 ^ 64 - 2 ^ 63

/-- `Logger::MaxLogFileSize_to_int` (`logger.cpp` lines 142-175): `-1` for
the empty string; otherwise the first suffix-table hit multiplies the
`toInt` of the characters before it (0 when unparseable); otherwise any
letter yields `-1`; otherwise the whole string is parsed as bytes.
(`QChar::isLetter` is Unicode-aware; ASCII `Char.isAlpha` is faithful for
the ASCII configuration values this parser is used on.) -/
def MaxLogFileSize_to_int (size : List Char) : Int :=
  if size.isEmpty then -1
  else
    match findSuffixHit sizeSuffixes size with
    | some (pos, fac) => int64wrap (qstringToInt (size.take pos) * fac)
    | none =>
      if size.any Char.isAlpha then -1
      else qstringToInt size

/-- Counterexample to claim C5 as stated: the suffix match is not
case-insensitive.  The table holds the casings `Kb`, `kb`, `KB` but not
`kB`, so `"10kB"` hits no suffix, then fails the letter scan and yields
`-1` — while a case-insensitive parse would give `10 * 1024 = 10240`. -/
theorem maxSize_parser_not_case_insensitive :
    MaxLogFileSize_to_int (("10kB").toList) = -1 ∧
    MaxLogFileSize_to_int (("10kB").toList) ≠ 10 * 1024 := by
  refine ⟨by decide, by decide⟩

/-- Claim C5 (amended): the parser recognizes the suffix casings `Xb`,
`xb`, `XB` for `X ∈ {K, M, G, T}` (multiplying by 1024, 1024^2, 1024^3,
1024^4) but not the mixed casing `xB`, which — containing a letter —
yields `-1`; a plain integer is bytes, an unrecognized non-numeric suffix
and the empty string yield `-1`.  All round-trip examples of the claim
hold. -/
theorem maxSize_parser_examples :
    MaxLogFileSize_to_int (("10Kb").toList) = 10240 ∧
    MaxLogFileSize_to_int (("2MB").toList) = 2097152 ∧
    MaxLogFileSize_to_int (("1gb").toList) = 1073741824 ∧
    MaxLogFileSize_to_int (("512").toList) = 512 ∧
    MaxLogFileSize_to_int (("garbage").toList) = -1 ∧
    MaxLogFileSize_to_int (("").toList) = -1 ∧
    MaxLogFileSize_to_int (("10kb").toList) = 10240 ∧
    MaxLogFileSize_to_int (("10KB").toList) = 10240 ∧
    MaxLogFileSize_to_int (("4Tb").toList) = 4398046511104 ∧
    MaxLogFileSize_to_int (("3Mb").toList) = 3145728 ∧
    MaxLogFileSize_to_int (("10kB").toList) = -1 ∧
    MaxLogFileSize_to_int (("10mB").toList) = -1 := by
  repeat refine ⟨by decide, ?_⟩
  decide

/-- Claim C10: when some suffix-table entry occurs in the input but the
characters before its first occurrence are not a parseable integer,
`MaxLogFileSize_to_int` returns `0` (the failed `toInt` yields 0, and
`0 * factor = 0`), not the unset sentinel `-1`. -/
theorem maxSize_parser_bad_prefix_zero (s : List Char) (pos : Nat)
    (fac : Int) (hhit : findSuffixHit sizeSuffixes s = some (pos, fac))
    (hbad : qstringToIntOk (s.take pos) = none) :
    MaxLogFileSize_to_int s = 0 := by
  have hs : s.isEmpty = false := by
    cases s with
    | nil =>
      have hnone : findSuffixHit sizeSuffixes ([] : List Char) = none := by
        decide
      rw [hnone] at hhit
      exact absurd hhit (by simp)
    | cons c rest => rfl
  unfold MaxLogFileSize_to_int
  rw [hs]
  simp only [Bool.false_eq_true, if_false, hhit, qstringToInt, hbad,
    Option.getD_none, zero_mul]
  decide

/-- Witness for C10 at the bare suffix `"Kb"`: the prefix before the hit
is empty, hence unparseable, and the parser returns `0`. -/
theorem maxSize_parser_bad_prefix_zero_witness :
    (findSuffixHit sizeSuffixes (("Kb").toList) = some (0, 1024) ∧
      qstringToIntOk ((("Kb").toList).take 0) = none) ∧
    MaxLogFileSize_to_int (("Kb").toList) = 0 :=
  ⟨⟨by decide, by decide⟩,
   maxSize_parser_bad_prefix_zero (("Kb").toList) 0 1024
     (by decide) (by decide)⟩

/-- `Logger::LoggerLevel_form_str` (`logger.cpp` lines 130-140): uppercase
the input and look it up among the seven severity names; unknown values
give `Warning`.  The `std::map` lookup is exact-match, so an if-chain is
equivalent.  (`QString::toUpper` is Unicode-aware; ASCII `Char.toUpper` is
faithful for the ASCII level names compared against.) -/
def LoggerLevel_form_str (level : List Char) : LoggerLevel :=
  let u := level.map Char.toUpper
  if u = ("SYSTEM").toList then LoggerLevel.System
  else if u = ("CRITICAL").toList then LoggerLevel.Critical
  else if u = ("ERROR").toList then LoggerLevel.Error
  else if u = ("WARNING").toList then LoggerLevel.Warning
  else if u = ("INFO").toList then LoggerLevel.Info
  else if u = ("DEBUG").toList then LoggerLevel.Debug
  else if u = ("DEVELOPER").toList then LoggerLevel.Developer
  else LoggerLevel.Warning

/-- The values `initFromConfig` reads from the selected section of the
config file through `QSettings`, with the source's defaults already
applied for missing keys (`""`, `""`, `"System"`, `""`, `-1`).  The INI
file itself and `QSettings` are Qt externals; the claim under proof is
about the boolean logic of `initFromConfig`, which only depends on these
read results. -/
structure ConfigData where
  logFolder : List Char
  logFileName : List Char
  logLevel : List Char
  maxLogFileSize : List Char
  maxFilesCount : Int

/-- `Logger::initFromConfig` (`logger.cpp` lines 177-209): fail when the
config file does not exist; store `LogFolder` and `LogFileName`; fail when
the folder is empty; otherwise parse level / max size / max count, set
`m_is_writing` from the file name and start the writer when writing, then
return true.  `fileExists` stands for `QFile::exists(file)`. -/
def Logger.initFromConfig (st : LoggerState) (fileExists : Bool)
    (cfg : ConfigData) : Bool × LoggerState :=
  if !fileExists then
    (false, st)
  else
    let st1 := { st with
      m_rootFolder := cfg.logFolder
      m_fileName := cfg.logFileName }
    if st1.m_rootFolder.isEmpty then
      (false, st1)
    else
      let isw := !cfg.logFileName.isEmpty
      (true, { st1 with
        m_level := LoggerLevel_form_str cfg.logLevel
        m_maxFilesSizeInBytes := MaxLogFileSize_to_int cfg.maxLogFileSize
        m_maxFilesCount := cfg.maxFilesCount
        m_is_writing := isw
        m_threadStarted := st1.m_threadStarted || isw })

/-- Claim C8: `initFromConfig` returns false exactly when the config file
does not exist or the `LogFolder` value read from the section is empty;
in every other case it returns true. -/
theorem initFromConfig_false_iff (st : LoggerState) (fileExists : Bool)
    (cfg : ConfigData) :
    (Logger.initFromConfig st fileExists cfg).1 = false ↔
      fileExists = false ∨ cfg.logFolder = [] := by
  cases fileExists with
  | false => simp [Logger.initFromConfig]
  | true =>
    cases hf : cfg.logFolder with
    | nil => simp [Logger.initFromConfig, hf]
    | cons c rest => simp [Logger.initFromConfig, hf]

/-- The pruning loop of the archive branch of `Logger::backupActiveFile`
(`logger.cpp` lines 318-326).  `files` is the directory listing of names
matching `<baseName>_*.log`, oldest first (the source sorts with
`QDir::Time | QDir::Reversed`); the result is the list of names the loop
actually deletes from disk.  Each iteration runs while
`m_maxFilesCount - 1 < files.size()`, deletes the head with
`files.takeFirst()` — which also removes it from the working list — and
then additionally calls `files.pop_front()`, dropping a second name from
the working list without deleting it from disk.  (On a one-element list
the extra `pop_front` acts on an empty `QList`, which is undefined in Qt;
it is modelled as a no-op.  With `m_maxFilesCount ≤ 0` and an empty list
the C++ loop would call `takeFirst` on an empty list, also undefined;
modelled as terminating with nothing further deleted.) -/
def pruneDeleted (m : Int) : List (List Char) → List (List Char)
  | [] => []
  | [f] => if m - 1 < (1 : Int) then [f] else []
  | f :: g :: rest =>
    if m - 1 < ((f :: g :: rest).length : Int) then f :: pruneDeleted m rest
    else []

/-- Number of files matching `<baseName>_*.log` after an archive-mode
rotation: the matched files that survive the pruning loop, plus the one
new archive created by renaming the active file (`logger.cpp` lines
328-337; directory entries have pairwise distinct names, and the loop
deletes a subset of the listing, so the survivors number
`length - deleted`). -/
def archiveRetainedCount (m : Int) (files : List (List Char)) : Nat :=
  files.length - (pruneDeleted m files).length + 1

/-- Claim C2, at the failing input: with `maxFilesCount = 2` and three
matched archives (oldest first `a`, `b`, `c`), the pruning loop deletes
only `a` — `takeFirst` removes `a` (deleted from disk) and the extra
`pop_front` skips `b` without deleting it — so after rotation 3 files
remain, not `min(3 + 1, 2) = 2` as the retention bound demands. -/
theorem archive_retention_violated :
    pruneDeleted 2 [("a").toList, ("b").toList, ("c").toList]
        = [("a").toList] ∧
    archiveRetainedCount 2 [("a").toList, ("b").toList, ("c").toList] = 3 ∧
    ¬ archiveRetainedCount 2 [("a").toList, ("b").toList, ("c").toList]
        = min (3 + 1) 2 := by
  refine ⟨by decide, by decide, by decide⟩

/-- Index of the first newline byte (10) in a byte list, `none` when there
is none. -/
def findNewlineIdx : List Nat → Option Nat
  | [] => none
  | b :: rest =>
    if b = 10 then some 0 else (findNewlineIdx rest).map (· + 1)

/-- `backup.readLine()` after `backup.seek(start)` in
`Logger::backupActiveFile` (`logger.cpp` line 291): the bytes from
`start` up to and including the first newline, or up to end of file when
no newline follows.  (The backup is opened with `QIODevice::Text`; on
newline-byte content without carriage returns the text-mode translation
is the identity, which is the regime of this log file.) -/
def readLineFrom (content : List Nat) (start : Nat) : List Nat :=
  match findNewlineIdx (content.drop start) with
  | some i => (content.drop start).take (i + 1)
  | none => content.drop start

/-- The in-place compaction branch of `Logger::backupActiveFile`
(`logger.cpp` lines 270-312, taken when `m_maxFilesCount == -1`), as a
function on the pre-compaction content of the active file: copy to a
backup, `seek(size)` with `size = backup.size() / 4`, read one line, take
`pos = str.indexOf("\n")` (-1 when the read line holds no newline),
`seek(size + pos + 1)`, truncate the active file and write the bytes from
that offset to the end of the backup into it. -/
def backupCompact (content : List Nat) : List Nat :=
  let size : Nat := content.length / 4
  let str := readLineFrom content size
  let pos : Int :=
    match findNewlineIdx str with
    | some k => (k : Int)
    | none => -1
  content.drop ((size : Int) + pos + 1).toNat

/-- A successful newline search returns an index holding a newline,
preceded by none. -/
theorem findNewlineIdx_get (l : List Nat) (i : Nat)
    (h : findNewlineIdx l = some i) :
    l.get? i = some 10 ∧ ∀ j, j < i → l.get? j ≠ some 10 := by
  induction l generalizing i with
  | nil => simp [findNewlineIdx] at h
  | cons b rest ih =>
    by_cases hb : b = 10
    · simp [findNewlineIdx, hb] at h
      subst h
      exact ⟨by simp [hb], fun j hj => absurd hj (Nat.not_lt_zero j)⟩
    · simp [findNewlineIdx, hb] at h
      obtain ⟨k, hk, rfl⟩ := h
      obtain ⟨h1, h2⟩ := ih k hk
      refine ⟨by simpa using h1, ?_⟩
      intro j hj
      cases j with
      | zero => simp [hb]
      | succ j2 =>
        have : j2 < k := Nat.lt_of_succ_lt_succ hj
        simpa using h2 j2 this

/-- Truncating just after the first newline preserves the search result. -/
theorem findNewlineIdx_take (l : List Nat) (i : Nat)
    (h : findNewlineIdx l = some i) :
    findNewlineIdx (l.take (i + 1)) = some i := by
  induction l generalizing i with
  | nil => simp [findNewlineIdx] at h
  | cons b rest ih =>
    by_cases hb : b = 10
    · simp [findNewlineIdx, hb] at h
      subst h
      simp [findNewlineIdx, hb]
    · simp [findNewlineIdx, hb] at h
      obtain ⟨k, hk, rfl⟩ := h
      simp [List.take_succ_cons, findNewlineIdx, hb, ih k hk]

/-- Claim C3 (amended): when the pre-compaction content has a newline at
or after `length / 4` — which holds for every non-empty newline-terminated
log file — in-place compaction keeps exactly the byte range from one past
the first such newline to the end, so the first kept byte immediately
follows a newline of the pre-compaction content.  `i` is the offset of
that newline within `content.drop (content.length / 4)`. -/
theorem compact_newline_cut (content : List Nat) (i : Nat)
    (h : findNewlineIdx (content.drop (content.length / 4)) = some i) :
    backupCompact content = content.drop (content.length / 4 + i + 1) ∧
    content.get? (content.length / 4 + i) = some 10 ∧
    ∀ j, j < i → content.get? (content.length / 4 + j) ≠ some 10 := by
  have hstr : readLineFrom content (content.length / 4) =
      (content.drop (content.length / 4)).take (i + 1) := by
    unfold readLineFrom
    rw [h]
  have hpos : findNewlineIdx (readLineFrom content (content.length / 4)) =
      some i := by
    rw [hstr]
    exact findNewlineIdx_take _ i h
  have hget := findNewlineIdx_get _ i h
  refine ⟨?_, ?_, ?_⟩
  · simp only [backupCompact, hpos]
    congr 1
    try omega
  · have := hget.1
    rwa [List.get?_drop] at this
  · intro j hj
    have := hget.2 j hj
    rwa [List.get?_drop] at this

/-- Witness for C3 at the content `"ab\ncd\nef\n"`: the quarter offset is
2, the first newline at or after it sits at offset 2 (relative offset 0),
and compaction keeps the bytes from offset 3 on. -/
theorem compact_newline_cut_witness :
    findNewlineIdx (([97, 98, 10, 99, 100, 10, 101, 102, 10] : List
      Nat).drop (([97, 98, 10, 99, 100, 10, 101, 102, 10] : List
      Nat).length / 4)) = some 0 ∧
    backupCompact [97, 98, 10, 99, 100, 10, 101, 102, 10] =
      [99, 100, 10, 101, 102, 10] :=
  ⟨by decide,
   by
    have := (compact_newline_cut [97, 98, 10, 99, 100, 10, 101, 102, 10] 0
      (by decide)).1
    simpa using this⟩

/-- The newline-alignment property claim C3 asserts of every
pre-compaction file: the compacted content is empty, or it is a suffix
`content.drop k` whose first byte starts a line of the pre-compaction
content (the start of the file, or the byte right after a newline).
Offsets beyond the length need not be inspected: dropping more than the
length gives the empty suffix, covered by the first disjunct. -/
def compactionAligned (content : List Nat) : Bool :=
  (backupCompact content).isEmpty ||
    (List.range (content.length + 1)).any fun k =>
      backupCompact content == content.drop k &&
        (k == 0 || content.get? (k - 1) == some 10)

/-- Counterexample to claim C3 as stated: for the 8-byte content
`"aaaaaaab"` with no newline at all, `readLine` finds no newline
(`pos = -1`), the code seeks back to `size / 4 = 2` and keeps the byte
range from offset 2 — whose first byte sits in the middle of a line, so
the compacted file does not start at a line boundary. -/
theorem compact_alignment_counterexample :
    backupCompact [97, 97, 97, 97, 97, 97, 97, 98] =
      [97, 97, 97, 97, 97, 98] ∧
    compactionAligned [97, 97, 97, 97, 97, 97, 97, 98] = false := by
  refine ⟨by decide, by decide⟩

/-- Scanning for place markers skips an ordinary character. -/
theorem markerNumbers_cons_ne (c : Char) (l : List Char) (h : ¬ c = '%') :
    markerNumbers (c :: l) = markerNumbers l := by
  cases l with
  | nil => simp [markerNumbers, h]
  | cons b bs => simp [markerNumbers, h]

/-- Marker replacement copies an ordinary character. -/
theorem replaceMarker_cons_ne (n : Nat) (r : List Char) (c : Char)
    (l : List Char) (h : ¬ c = '%') :
    replaceMarker n r (c :: l) = c :: replaceMarker n r l := by
  cases l with
  | nil => simp [replaceMarker, h]
  | cons b bs => simp [replaceMarker, h]

/-- A percent-free list contributes no markers. -/
theorem markerNumbers_append_of (a b : List Char) (ha : '%' ∉ a) :
    markerNumbers (a ++ b) = markerNumbers b := by
  induction a with
  | nil => simp
  | cons c a2 ih =>
    have hc : ¬ c = '%' := fun hh => ha (by simp [hh])
    have ha2 : '%' ∉ a2 := fun hh => ha (List.mem_cons_of_mem _ hh)
    rw [List.cons_append, markerNumbers_cons_ne c _ hc, ih ha2]

/-- Marker replacement passes over a percent-free prefix unchanged. -/
theorem replaceMarker_append_of (n : Nat) (r a b : List Char)
    (ha : '%' ∉ a) :
    replaceMarker n r (a ++ b) = a ++ replaceMarker n r b := by
  induction a with
  | nil => simp
  | cons c a2 ih =>
    have hc : ¬ c = '%' := fun hh => ha (by simp [hh])
    have ha2 : '%' ∉ a2 := fun hh => ha (List.mem_cons_of_mem _ hh)
    rw [List.cons_append, replaceMarker_cons_ne n r c _ hc, ih ha2,
      List.cons_append]

/-- Percent-freedom is preserved by concatenation. -/
theorem noPct_append (a b : List Char) (ha : '%' ∉ a) (hb : '%' ∉ b) :
    '%' ∉ a ++ b := by
  intro h
  rcases List.mem_append.mp h with h1 | h1
  · exact ha h1
  · exact hb h1

/-- Percent-freedom is preserved by prepending a non-percent character. -/
theorem noPct_cons (c : Char) (a : List Char) (hc : ¬ '%' = c)
    (ha : '%' ∉ a) : '%' ∉ c :: a := by
  intro h
  rcases List.mem_cons.mp h with h1 | h1
  · exact hc h1
  · exact ha h1

/-- `qarg` with a known lowest marker number is that marker's
replacement. -/
theorem qarg_eq_replace (s a : List Char) (n : Nat)
    (h : listMin (markerNumbers s) = some n) :
    qarg s a = replaceMarker n a s := by
  unfold qarg
  rw [h]

/-- One `QString::arg` step on a string split as a percent-free prefix
(already holding earlier substitutions) followed by the concrete remainder
of the template: the argument lands in the remainder. -/
theorem qarg_prefix_step (P tail r : List Char) (n : Nat) (hP : '%' ∉ P)
    (hmin : listMin (markerNumbers tail) = some n) :
    qarg (P ++ tail) r = P ++ replaceMarker n r tail := by
  have h1 : listMin (markerNumbers (P ++ tail)) = some n := by
    rw [markerNumbers_append_of _ _ hP]
    exact hmin
  rw [qarg_eq_replace _ _ _ h1, replaceMarker_append_of _ _ _ _ hP]

/-- Claim C9 (amended): provided the timestamp, level name, message and
source file contain no percent character — so no `QString::arg` place
marker of a later argument is captured by an earlier substitution —
`format_msg` produces exactly the four line variants selected by
"source file non-empty" and "source line ≠ -1". -/
theorem format_msg_four_variants (ts strLevel message sourceFile : List Char)
    (sourceLine : Int) (hts : '%' ∉ ts) (hlvl : '%' ∉ strLevel)
    (hmsg : '%' ∉ message) (hfile : '%' ∉ sourceFile) :
    format_msg ts strLevel message sourceFile sourceLine =
      if sourceFile ≠ [] then
        if sourceLine ≠ -1 then
          ts ++ (" [").toList ++ strLevel ++ ("]: ").toList ++ message ++
            (" [").toList ++ sourceFile ++ (" (").toList ++
            intToChars sourceLine ++ (")]").toList ++ ("\n").toList
        else
          ts ++ (" [").toList ++ strLevel ++ ("]: ").toList ++ message ++
            (" [").toList ++ sourceFile ++ ("]").toList ++ ("\n").toList
      else
        if sourceLine ≠ -1 then
          ts ++ (" [").toList ++ strLevel ++ ("]: ").toList ++ message ++
            (" (").toList ++ intToChars sourceLine ++ (")").toList ++
            ("\n").toList
        else
          ts ++ (" [").toList ++ strLevel ++ ("]: ").toList ++ message ++
            ("\n").toList := by
  have hP2 : '%' ∉ ts ++ (' ' :: '[' :: strLevel) :=
    noPct_append _ _ hts (noPct_cons _ _ (by decide)
      (noPct_cons _ _ (by decide) hlvl))
  unfold format_msg
  split_ifs with h1 h2 h3
  · -- both source file and source line present
    have hP3 : '%' ∉ (ts ++ (' ' :: '[' :: strLevel)) ++
        (']' :: ':' :: ' ' :: message) :=
      noPct_append _ _ hP2 (noPct_cons _ _ (by decide) (noPct_cons _ _
        (by decide) (noPct_cons _ _ (by decide) hmsg)))
    have hP4 : '%' ∉ ((ts ++ (' ' :: '[' :: strLevel)) ++
        (']' :: ':' :: ' ' :: message)) ++ (' ' :: '[' :: sourceFile) :=
      noPct_append _ _ hP3 (noPct_cons _ _ (by decide)
        (noPct_cons _ _ (by decide) hfile))
    have e1 : qarg (("%1 [%2]: %3 [%4 (%5)]\n").toList) ts =
        ts ++ ((" [%2]: %3 [%4 (%5)]\n").toList) := rfl
    rw [e1, qarg_prefix_step ts ((" [%2]: %3 [%4 (%5)]\n").toList)
      strLevel 2 hts rfl]
    have e2 : ts ++ replaceMarker 2 strLevel
        ((" [%2]: %3 [%4 (%5)]\n").toList) =
        (ts ++ (' ' :: '[' :: strLevel)) ++ (("]: %3 [%4 (%5)]\n").toList) := by
      show ts ++ (' ' :: '[' ::
        (strLevel ++ (("]: %3 [%4 (%5)]\n").toList))) = _
      simp [List.append_assoc]
    rw [e2, qarg_prefix_step (ts ++ (' ' :: '[' :: strLevel))
      (("]: %3 [%4 (%5)]\n").toList) message 3 hP2 rfl]
    have e3 : (ts ++ (' ' :: '[' :: strLevel)) ++ replaceMarker 3 message
        (("]: %3 [%4 (%5)]\n").toList) =
        ((ts ++ (' ' :: '[' :: strLevel)) ++ (']' :: ':' :: ' ' :: message))
          ++ ((" [%4 (%5)]\n").toList) := by
      show (ts ++ (' ' :: '[' :: strLevel)) ++ (']' :: ':' :: ' ' ::
        (message ++ ((" [%4 (%5)]\n").toList))) = _
      simp [List.append_assoc]
    rw [e3, qarg_prefix_step ((ts ++ (' ' :: '[' :: strLevel)) ++
      (']' :: ':' :: ' ' :: message)) ((" [%4 (%5)]\n").toList)
      sourceFile 4 hP3 rfl]
    have e4 : ((ts ++ (' ' :: '[' :: strLevel)) ++
        (']' :: ':' :: ' ' :: message)) ++ replaceMarker 4 sourceFile
        ((" [%4 (%5)]\n").toList) =
        (((ts ++ (' ' :: '[' :: strLevel)) ++ (']' :: ':' :: ' ' :: message))
          ++ (' ' :: '[' :: sourceFile)) ++ ((" (%5)]\n").toList) := by
      show ((ts ++ (' ' :: '[' :: strLevel)) ++
        (']' :: ':' :: ' ' :: message)) ++ (' ' :: '[' ::
        (sourceFile ++ ((" (%5)]\n").toList))) = _
      simp [List.append_assoc]
    rw [e4, qarg_prefix_step (((ts ++ (' ' :: '[' :: strLevel)) ++
      (']' :: ':' :: ' ' :: message)) ++ (' ' :: '[' :: sourceFile))
      ((" (%5)]\n").toList) (intToChars sourceLine) 5 hP4 rfl]
    show (((ts ++ (' ' :: '[' :: strLevel)) ++
      (']' :: ':' :: ' ' :: message)) ++ (' ' :: '[' :: sourceFile)) ++
      (' ' :: '(' :: (intToChars sourceLine ++ ((")]\n").toList))) = _
    simp [List.append_assoc]
  · -- source file present, source line absent
    have hP3 : '%' ∉ (ts ++ (' ' :: '[' :: strLevel)) ++
        (']' :: ':' :: ' ' :: message) :=
      noPct_append _ _ hP2 (noPct_cons _ _ (by decide) (noPct_cons _ _
        (by decide) (noPct_cons _ _ (by decide) hmsg)))
    have e1 : qarg (("%1 [%2]: %3 [%4]\n").toList) ts =
        ts ++ ((" [%2]: %3 [%4]\n").toList) := rfl
    rw [e1, qarg_prefix_step ts ((" [%2]: %3 [%4]\n").toList)
      strLevel 2 hts rfl]
    have e2 : ts ++ replaceMarker 2 strLevel ((" [%2]: %3 [%4]\n").toList) =
        (ts ++ (' ' :: '[' :: strLevel)) ++ (("]: %3 [%4]\n").toList) := by
      show ts ++ (' ' :: '[' :: (strLevel ++ (("]: %3 [%4]\n").toList))) = _
      simp [List.append_assoc]
    rw [e2, qarg_prefix_step (ts ++ (' ' :: '[' :: strLevel))
      (("]: %3 [%4]\n").toList) message 3 hP2 rfl]
    have e3 : (ts ++ (' ' :: '[' :: strLevel)) ++ replaceMarker 3 message
        (("]: %3 [%4]\n").toList) =
        ((ts ++ (' ' :: '[' :: strLevel)) ++ (']' :: ':' :: ' ' :: message))
          ++ ((" [%4]\n").toList) := by
      show (ts ++ (' ' :: '[' :: strLevel)) ++ (']' :: ':' :: ' ' ::
        (message ++ ((" [%4]\n").toList))) = _
      simp [List.append_assoc]
    rw [e3, qarg_prefix_step ((ts ++ (' ' :: '[' :: strLevel)) ++
      (']' :: ':' :: ' ' :: message)) ((" [%4]\n").toList)
      sourceFile 4 hP3 rfl]
    show ((ts ++ (' ' :: '[' :: strLevel)) ++
      (']' :: ':' :: ' ' :: message)) ++ (' ' :: '[' ::
      (sourceFile ++ (("]\n").toList))) = _
    simp [List.append_assoc]
  · -- source file absent, source line present
    have hP3 : '%' ∉ (ts ++ (' ' :: '[' :: strLevel)) ++
        (']' :: ':' :: ' ' :: message) :=
      noPct_append _ _ hP2 (noPct_cons _ _ (by decide) (noPct_cons _ _
        (by decide) (noPct_cons _ _ (by decide) hmsg)))
    have e1 : qarg (("%1 [%2]: %3 (%4)\n").toList) ts =
        ts ++ ((" [%2]: %3 (%4)\n").toList) := rfl
    rw [e1, qarg_prefix_step ts ((" [%2]: %3 (%4)\n").toList)
      strLevel 2 hts rfl]
    have e2 : ts ++ replaceMarker 2 strLevel ((" [%2]: %3 (%4)\n").toList) =
        (ts ++ (' ' :: '[' :: strLevel)) ++ (("]: %3 (%4)\n").toList) := by
      show ts ++ (' ' :: '[' :: (strLevel ++ (("]: %3 (%4)\n").toList))) = _
      simp [List.append_assoc]
    rw [e2, qarg_prefix_step (ts ++ (' ' :: '[' :: strLevel))
      (("]: %3 (%4)\n").toList) message 3 hP2 rfl]
    have e3 : (ts ++ (' ' :: '[' :: strLevel)) ++ replaceMarker 3 message
        (("]: %3 (%4)\n").toList) =
        ((ts ++ (' ' :: '[' :: strLevel)) ++ (']' :: ':' :: ' ' :: message))
          ++ ((" (%4)\n").toList) := by
      show (ts ++ (' ' :: '[' :: strLevel)) ++ (']' :: ':' :: ' ' ::
        (message ++ ((" (%4)\n").toList))) = _
      simp [List.append_assoc]
    rw [e3, qarg_prefix_step ((ts ++ (' ' :: '[' :: strLevel)) ++
      (']' :: ':' :: ' ' :: message)) ((" (%4)\n").toList)
      (intToChars sourceLine) 4 hP3 rfl]
    show ((ts ++ (' ' :: '[' :: strLevel)) ++
      (']' :: ':' :: ' ' :: message)) ++ (' ' :: '(' ::
      (intToChars sourceLine ++ ((")\n").toList))) = _
    simp [List.append_assoc]
  · -- neither source file nor source line
    have e1 : qarg (("%1 [%2]: %3\n").toList) ts =
        ts ++ ((" [%2]: %3\n").toList) := rfl
    rw [e1, qarg_prefix_step ts ((" [%2]: %3\n").toList)
      strLevel 2 hts rfl]
    have e2 : ts ++ replaceMarker 2 strLevel ((" [%2]: %3\n").toList) =
        (ts ++ (' ' :: '[' :: strLevel)) ++ (("]: %3\n").toList) := by
      show ts ++ (' ' :: '[' :: (strLevel ++ (("]: %3\n").toList))) = _
      simp [List.append_assoc]
    rw [e2, qarg_prefix_step (ts ++ (' ' :: '[' :: strLevel))
      (("]: %3\n").toList) message 3 hP2 rfl]
    show (ts ++ (' ' :: '[' :: strLevel)) ++ (']' :: ':' :: ' ' ::
      (message ++ (("\n").toList))) = _
    simp [List.append_assoc]

/-- Witness for C9 at a concrete percent-free input: both source file and
line present yields the first variant. -/
theorem format_msg_four_variants_witness :
    ('%' ∉ (("ts").toList) ∧ '%' ∉ (("Info").toList) ∧
      '%' ∉ (("hello").toList) ∧ '%' ∉ (("m.cpp").toList)) ∧
    format_msg (("ts").toList) (("Info").toList) (("hello").toList)
        (("m.cpp").toList) 42 =
      if (("m.cpp").toList) ≠ [] then
        if (42 : Int) ≠ -1 then
          (("ts").toList) ++ (" [").toList ++ (("Info").toList) ++
            ("]: ").toList ++ (("hello").toList) ++ (" [").toList ++
            (("m.cpp").toList) ++ (" (").toList ++ intToChars 42 ++
            (")]").toList ++ ("\n").toList
        else
          (("ts").toList) ++ (" [").toList ++ (("Info").toList) ++
            ("]: ").toList ++ (("hello").toList) ++ (" [").toList ++
            (("m.cpp").toList) ++ ("]").toList ++ ("\n").toList
      else
        if (42 : Int) ≠ -1 then
          (("ts").toList) ++ (" [").toList ++ (("Info").toList) ++
            ("]: ").toList ++ (("hello").toList) ++ (" (").toList ++
            intToChars 42 ++ (")").toList ++ ("\n").toList
        else
          (("ts").toList) ++ (" [").toList ++ (("Info").toList) ++
            ("]: ").toList ++ (("hello").toList) ++ ("\n").toList :=
  ⟨⟨by decide, by decide, by decide, by decide⟩,
   format_msg_four_variants (("ts").toList) (("Info").toList)
     (("hello").toList) (("m.cpp").toList) 42
     (by decide) (by decide) (by decide) (by decide)⟩

/-- Counterexample to claim C9 as stated: for the message `"%5"` (both
source file and line present) the chained `QString::arg` calls capture the
message's place marker — the `.arg(sourceLine)` substitution rewrites the
`%5` inside the message — so the produced line is not the claimed variant
`"<ts> [<lvl>]: <msg> [<file> (<line>)]\n"`, whose text here would be
`"T [L]: %5 [f (7)]\n"`. -/
theorem format_msg_marker_capture_counterexample :
    format_msg (("T").toList) (("L").toList) (("%5").toList)
        (("f").toList) 7 = ("T [L]: 7 [f (7)]\n").toList ∧
    format_msg (("T").toList) (("L").toList) (("%5").toList)
        (("f").toList) 7 ≠
      (("T").toList) ++ (" [").toList ++ (("L").toList) ++ ("]: ").toList
        ++ (("%5").toList) ++ (" [").toList ++ (("f").toList) ++
        (" (").toList ++ intToChars 7 ++ (")]").toList ++ ("\n").toList := by
  refine ⟨by decide, by decide⟩
